import Mathlib

/-!
Verification of the FastAPI chat service in
`src/assignments/class-06-guardrails-lab/fastapi-agent-service/main.py`.

The service is embedded shallowly: each Python function becomes a Lean
function; the mutable token dictionary `app.state.active_tokens` is passed
and returned explicitly; the outcomes of the external vendor calls (the
Langfuse auth check, the two Guardrails validators, the LangGraph agent)
are supplied by an `Ext` record of oracles, one per request.  The `chat`
handler additionally returns the list of external calls it made, in order,
so that sequencing claims can be stated.
-/

namespace AgentService

/-- Whitespace as Python's `str.strip` removes it (the ASCII whitespace set). -/
def isPySpace (c : Char) : Bool :=
  c = ' ' || c = '\t' || c = '\n' || c = '\r' || c = '\x0b' || c = '\x0c'

/-- Python's `str.strip()`: drop leading and trailing whitespace. -/
def pyStrip (s : String) : String :=
  ⟨((s.data.dropWhile isPySpace).reverse.dropWhile isPySpace).reverse⟩

/-- Python's `str.lower()` (restricted to the ASCII letters that occur in the
handler's keyword tests). -/
def pyLower (s : String) : String := ⟨s.data.map Char.toLower⟩

/-- Whether `needle` occurs as a contiguous run inside `hay`. -/
def listContains (hay needle : List Char) : Bool :=
  match hay with
  | [] => needle.isEmpty
  | _ :: rest => needle.isPrefixOf hay || listContains rest needle

/-- Python's `needle in hay` on strings: substring containment. -/
def strContains (hay needle : String) : Bool := listContains hay.data needle.data

/-- Truthiness of a Python `Optional[str]`: `None` and `""` are falsy. -/
def truthyOptStr : Option String → Bool
  | none => false
  | some s => !(s = "")

/-- The environment-derived configuration read at module load
(`OPENAI_MODEL` has the default `"gpt-4o-mini"` applied already;
the credential variables are `Optional[str]` from `os.getenv`). -/
structure Config where
  OPENAI_MODEL : String
  AGENT_API_USERNAME : Option String
  AGENT_API_PASSWORD : Option String

/-- Per-request outcomes of the external vendor services:
`langfuse_auth_ok` is what `get_client().auth_check()` returns;
`topic_valid t` is whether the RestrictToTopic validator accepts `t`
(`false` makes `guard.validate` raise, which `apply_topic_guardrail`
turns into the string `"GUARDRAILS ERROR"`); `reading_time_ok t` likewise
for the ReadingTime validator; `agent_reply m` is what `run_agent`
returns for message `m` (`none` covers an unavailable agent runner, an
invocation error, or an empty message list in the result). -/
structure Ext where
  langfuse_auth_ok : Bool
  topic_valid : String → Bool
  agent_reply : String → Option String
  reading_time_ok : String → Bool

/-- What a guardrail helper returns: the `ValidationOutcome` object from a
successful `guard.validate`, or the literal string `"GUARDRAILS ERROR"`
from the `except` branch.  A `ValidationOutcome` object never equals a
string in Python, so the two are kept apart by the type. -/
inductive GuardValue where
  | outcome (validated : String)
  | guardrailsError
deriving DecidableEq

/-- The handler's test `result == "GUARDRAILS ERROR"`. -/
def GuardValue.isGuardrailsError : GuardValue → Bool
  | .outcome _ => false
  | .guardrailsError => true

/-- `apply_reading_time_guardrail`: validate the response text against the
15-second ReadingTime guard, returning `"GUARDRAILS ERROR"` when it raises. -/
def apply_reading_time_guardrail (ext : Ext) (response_text : String) : GuardValue :=
  if ext.reading_time_ok response_text then .outcome response_text else .guardrailsError

/-- `apply_topic_guardrail`: validate the prompt against the RestrictToTopic
guard, returning `"GUARDRAILS ERROR"` when it raises. -/
def apply_topic_guardrail (ext : Ext) (prompt : String) : GuardValue :=
  if ext.topic_valid prompt then .outcome prompt else .guardrailsError

/-- `run_agent`: ask the LangGraph agent; `none` when unavailable or failed.
The fixed `SYSTEM_PROMPT` the handler passes is absorbed into the oracle. -/
def run_agent (ext : Ext) (message : String) : Option String :=
  ext.agent_reply message

/-- `build_offline_reply`: the rule-based fallback keyed on lowercase
keyword containment. -/
def build_offline_reply (message : String) : String :=
  let text := pyLower message
  if strContains text "streamlit" then
    "Streamlit reruns your script after every click. Keep anything you need in st.session_state."
  else if strContains text "fastapi" then
    "FastAPI ships with automatic docs at /docs. Try them once the server is running!"
  else if strContains text "langfuse" || strContains text "monitor" then
    "Langfuse links inputs and outputs. Set the keys to see traces pop up in the dashboard."
  else if strContains text "deploy" then
    "Deploy the API first, then point your Streamlit app to the live URL to share it."
  else
    "I am in offline mode. Ask about Streamlit, FastAPI, or Langfuse to see directed tips."

/-- `invoke_agent`: run the agent inside a Langfuse span; a truthy
(non-`None`, non-empty) agent reply is returned with source
`"langgraph:{OPENAI_MODEL}"`, anything else falls back to
`build_offline_reply` with source `"rule-based"`. -/
def invoke_agent (cfg : Config) (ext : Ext) (message : String) : String × String :=
  let agent_reply := run_agent ext message
  if truthyOptStr agent_reply then
    (agent_reply.getD "", "langgraph:" ++ cfg.OPENAI_MODEL)
  else
    (build_offline_reply message, "rule-based")

/-- `create_token`: `f"token-{uuid4()}-{username}"`, with the fresh UUID
supplied as an explicit argument. -/
def create_token (uuid : String) (username : String) : String :=
  "token-" ++ uuid ++ "-" ++ username

/-- `app.state.active_tokens`, the in-memory token-to-username dictionary.
Assignment prepends; lookup takes the most recent binding, matching
Python dictionary assignment and `get`. -/
def tokenLookup (active_tokens : List (String × String)) (tok : String) : Option String :=
  match active_tokens with
  | [] => none
  | (t, u) :: rest => if t = tok then some u else tokenLookup rest tok

/-- `save_token`: `app.state.active_tokens[token] = username`. -/
def save_token (active_tokens : List (String × String)) (token username : String) :
    List (String × String) :=
  (token, username) :: active_tokens

/-- HTTP-level failures a handler can produce: a raised `HTTPException`, or
pydantic rejecting the response model under construction. -/
inductive ChatError where
  | httpException (status : Nat) (detail : String)
  | responseValidationError
deriving DecidableEq

/-- `verify_token`: look the header token up in `active_tokens`; a missing
or falsy username raises 401. -/
def verify_token (active_tokens : List (String × String)) (x_auth_token : String) :
    Except ChatError String :=
  match tokenLookup active_tokens x_auth_token with
  | some username =>
      if username = "" then
        .error (.httpException 401 "Missing or invalid authentication token")
      else
        .ok username
  | none => .error (.httpException 401 "Missing or invalid authentication token")

/-- `ChatRequest`: `message: str`, `session_id: Optional[str] = None`. -/
structure ChatRequest where
  message : String
  session_id : Option String
deriving DecidableEq

/-- `ChatResponse`: all four fields required; in particular
`session_id: str` does not admit `None`. -/
structure ChatResponse where
  reply : String
  source : String
  monitored : Bool
  session_id : String
deriving DecidableEq

/-- `LoginRequest`. -/
structure LoginRequest where
  username : String
  password : String
deriving DecidableEq

/-- `LoginResponse`. -/
structure LoginResponse where
  message : String
  token : String
deriving DecidableEq

/-- Constructing `ChatResponse(...)`: pydantic validates the fields, so a
`None` session_id raises a validation error instead of producing a response. -/
def mkChatResponse (reply source : String) (monitored : Bool) (session_id : Option String) :
    Except ChatError ChatResponse :=
  match session_id with
  | some sid => .ok { reply := reply, source := source, monitored := monitored, session_id := sid }
  | none => .error .responseValidationError

/-- Python's falsiness test `not X` on an `Optional[str]`. -/
def falsyOptStr (s : Option String) : Bool := !(truthyOptStr s)

/-- `login`: reject when the server credentials are unset or falsy (500),
or when they do not match (401); otherwise mint a token, save it, and
answer with a welcome message. -/
def login (cfg : Config) (uuid : String) (credentials : LoginRequest)
    (active_tokens : List (String × String)) :
    Except ChatError LoginResponse × List (String × String) :=
  if falsyOptStr cfg.AGENT_API_USERNAME || falsyOptStr cfg.AGENT_API_PASSWORD then
    (.error (.httpException 500 "Server credentials are not configured"), active_tokens)
  else if cfg.AGENT_API_USERNAME != some credentials.username
      || cfg.AGENT_API_PASSWORD != some credentials.password then
    (.error (.httpException 401 "Invalid username or password"), active_tokens)
  else
    let token := create_token uuid credentials.username
    (.ok { message := "Welcome back, " ++ credentials.username ++ "!", token := token },
     save_token active_tokens token credentials.username)

/-- `health`: returns `{"status": "ok"}` and touches no state. -/
def health (active_tokens : List (String × String)) :
    String × List (String × String) :=
  ("ok", active_tokens)

/-- An external call the `chat` handler makes, recorded in order. -/
inductive Event where
  | authenticate (ok : Bool)
  | langfuseAuthCheck (ok : Bool)
  | topicGuard (text : String)
  | agentCall (text : String)
  | readingTimeGuard (text : String)
  | respond
deriving DecidableEq

/-- The pipeline stage an event belongs to. -/
def Event.stage : Event → Nat
  | .authenticate _ => 0
  | .langfuseAuthCheck _ => 1
  | .topicGuard _ => 2
  | .agentCall _ => 3
  | .readingTimeGuard _ => 4
  | .respond => 5

/-- Whether a trace is strictly increasing in pipeline stage. -/
def stageOrdered : List Event → Bool
  | [] => true
  | [_] => true
  | x :: y :: rest => (x.stage < y.stage) && stageOrdered (y :: rest)

/-- A content-policy (Guardrails) check event. -/
def Event.isGuardCheck : Event → Bool
  | .topicGuard _ => true
  | .readingTimeGuard _ => true
  | _ => false

/-- The canned refusal the handler returns when the topic guardrail blocks. -/
def topicRefusal : String :=
  "Sorry, I can only discuss topics related to Streamlit, FastAPI, or general programming. Please adjust your question."

/-- The canned refusal the handler returns when the reading-time guardrail blocks. -/
def readingTimeRefusal : String :=
  "The generated answer would take longer than 15 seconds to read. Please simplify or narrow down your question so I can provide a concise and focused response."

/-- The `chat` handler: authenticate via `verify_token` (FastAPI `Depends`),
reject blank messages with 400, run the Langfuse auth check, apply the
topic guardrail to the stripped message, invoke the agent, apply the
reading-time guardrail to the reply, and build the response.  Returns the
handler's outcome, the trace of external calls in order, and the token
state (which the handler only reads). -/
def chat (cfg : Config) (ext : Ext) (active_tokens : List (String × String))
    (x_auth_token : String) (payload : ChatRequest) :
    Except ChatError ChatResponse × List Event × List (String × String) :=
  match verify_token active_tokens x_auth_token with
  | .error e => (.error e, [.authenticate false], active_tokens)
  | .ok _username =>
    let message := pyStrip payload.message
    if message = "" then
      (.error (.httpException 400 "message cannot be empty"),
       [.authenticate true], active_tokens)
    else
      let session_id := payload.session_id
      let monitored := ext.langfuse_auth_ok
      let guard_topic_result := apply_topic_guardrail ext message
      if guard_topic_result.isGuardrailsError then
        (mkChatResponse topicRefusal "guardrail:topic" false session_id,
         [.authenticate true, .langfuseAuthCheck monitored, .topicGuard message, .respond],
         active_tokens)
      else
        let rs := invoke_agent cfg ext message
        let guard_length_result := apply_reading_time_guardrail ext rs.1
        if guard_length_result.isGuardrailsError then
          (mkChatResponse readingTimeRefusal "guardrail:reading_time" monitored session_id,
           [.authenticate true, .langfuseAuthCheck monitored, .topicGuard message,
            .agentCall message, .readingTimeGuard rs.1, .respond],
           active_tokens)
        else
          (mkChatResponse rs.1 rs.2 monitored session_id,
           [.authenticate true, .langfuseAuthCheck monitored, .topicGuard message,
            .agentCall message, .readingTimeGuard rs.1, .respond],
           active_tokens)

/-- The handler's HTTP outcome. -/
def chatResult (cfg : Config) (ext : Ext) (active_tokens : List (String × String))
    (x_auth_token : String) (payload : ChatRequest) : Except ChatError ChatResponse :=
  (chat cfg ext active_tokens x_auth_token payload).1

/-- The external calls the handler made, in order. -/
def chatTrace (cfg : Config) (ext : Ext) (active_tokens : List (String × String))
    (x_auth_token : String) (payload : ChatRequest) : List Event :=
  (chat cfg ext active_tokens x_auth_token payload).2.1

/-- The token state after the handler ran. -/
def chatTokens (cfg : Config) (ext : Ext) (active_tokens : List (String × String))
    (x_auth_token : String) (payload : ChatRequest) : List (String × String) :=
  (chat cfg ext active_tokens x_auth_token payload).2.2

/-- The environment `build_agent_runner` and `build_tools` consult:
whether `OPENAI_API_KEY` is truthy, whether the `create_react_agent` and
`ChatOpenAI` imports are available, whether the `tool` decorator import is
available (`build_tools` returns `[]` when it is `None`), and whether
`create_react_agent(llm, tools)` itself succeeds. -/
structure BuildEnv where
  OPENAI_API_KEY : Option String
  create_react_agent_available : Bool
  ChatOpenAI_available : Bool
  tool_available : Bool
  create_agent_ok : Bool

/-- The tools the service can hand to the agent. -/
inductive Tool where
  | tavily_search
deriving DecidableEq

/-- The constructed LangGraph ReAct agent, carrying the tool list it was
given. -/
structure AgentRunner where
  tools : List Tool
deriving DecidableEq

/-- `build_tools`: `[]` when the `tool` decorator is unavailable, otherwise
exactly `[tavily_search]`. -/
def build_tools (env : BuildEnv) : List Tool :=
  if env.tool_available = false then [] else [Tool.tavily_search]

/-- `build_agent_runner`: `None` without a key or the imports, `None` when
the tool list is empty, `None` when construction raises; otherwise the
agent built over `build_tools`. -/
def build_agent_runner (env : BuildEnv) : Option AgentRunner :=
  if !(truthyOptStr env.OPENAI_API_KEY && env.create_react_agent_available
        && env.ChatOpenAI_available) then
    none
  else
    let tools := build_tools env
    if tools.isEmpty then
      none
    else if env.create_agent_ok then
      some { tools := tools }
    else
      none

/-- One request against the service, for the state-evolution claims: the
route plus everything that parameterises it. -/
inductive Op where
  | healthOp
  | loginOp (uuid : String) (credentials : LoginRequest)
  | chatOp (ext : Ext) (x_auth_token : String) (payload : ChatRequest)
  | verifyOp (x_auth_token : String)

/-- How one request transforms `app.state.active_tokens`. -/
def Op.step (cfg : Config) (op : Op) (s : List (String × String)) :
    List (String × String) :=
  match op with
  | .healthOp => (health s).2
  | .loginOp uuid credentials => (login cfg uuid credentials s).2
  | .chatOp ext tok payload => chatTokens cfg ext s tok payload
  | .verifyOp _ => s

/-- A server configuration used to instantiate the general theorems on
concrete inputs. -/
def cfgW : Config :=
  { OPENAI_MODEL := "gpt-4o-mini", AGENT_API_USERNAME := some "alice",
    AGENT_API_PASSWORD := some "pw" }

/-- External services all healthy: Langfuse authenticated, both guardrails
passing, agent answering. -/
def extAllOk : Ext :=
  { langfuse_auth_ok := true, topic_valid := fun _ => true,
    agent_reply := fun _ => some "ok reply", reading_time_ok := fun _ => true }

/-- External services with the topic guardrail rejecting every prompt. -/
def extTopicBlock : Ext :=
  { langfuse_auth_ok := true, topic_valid := fun _ => false,
    agent_reply := fun _ => some "ok reply", reading_time_ok := fun _ => true }

/-- External services with the agent answering but the reading-time guardrail
rejecting every reply. -/
def extAgentLong : Ext :=
  { langfuse_auth_ok := true, topic_valid := fun _ => true,
    agent_reply := fun _ => some "long", reading_time_ok := fun _ => false }

/-- External services with the agent unavailable, so the rule-based fallback
answers. -/
def extOffline : Ext :=
  { langfuse_auth_ok := true, topic_valid := fun _ => true,
    agent_reply := fun _ => none, reading_time_ok := fun _ => true }

/-- A token state holding one logged-in session. -/
def sW : List (String × String) := [("tok1", "alice")]

/-- A concrete chat request. -/
def reqW : ChatRequest := { message := "fastapi", session_id := some "s1" }

/-- The response the handler produces when the topic guardrail blocks `reqW`. -/
def respTopicBlocked : ChatResponse :=
  { reply := topicRefusal, source := "guardrail:topic", monitored := false,
    session_id := "s1" }

/-- The response the handler produces for `reqW` when the agent is offline. -/
def respOffline : ChatResponse :=
  { reply := build_offline_reply (pyStrip reqW.message), source := "rule-based",
    monitored := true, session_id := "s1" }

/-- The response the handler produces for `reqW` with every service healthy. -/
def respEcho : ChatResponse :=
  { reply := "ok reply", source := "langgraph:gpt-4o-mini", monitored := true,
    session_id := "s1" }

/-- A fully configured build environment. -/
def envW : BuildEnv :=
  { OPENAI_API_KEY := some "k", create_react_agent_available := true,
    ChatOpenAI_available := true, tool_available := true, create_agent_ok := true }

/-- The agent runner `build_agent_runner` yields under `envW`. -/
def runnerW : AgentRunner := { tools := [Tool.tavily_search] }

/-- The login response minted for user `alice` with UUID `u1`. -/
def loginRespW : LoginResponse :=
  { message := "Welcome back, alice!", token := "token-u1-alice" }

/-- Case analysis of the `chat` handler: every request falls into exactly one
of five shapes (authentication failure, blank message, topic-guardrail
block, reading-time-guardrail block, pass-through), with the handler's
outcome, call trace and token state made explicit in each. -/
theorem chat_cases (cfg : Config) (ext : Ext) (s : List (String × String))
    (tok : String) (payload : ChatRequest) :
    (∃ e, verify_token s tok = Except.error e
       ∧ chat cfg ext s tok payload = (.error e, [.authenticate false], s))
  ∨ (∃ u, verify_token s tok = Except.ok u ∧ pyStrip payload.message = ""
       ∧ chat cfg ext s tok payload =
           (.error (.httpException 400 "message cannot be empty"), [.authenticate true], s))
  ∨ (∃ u, verify_token s tok = Except.ok u ∧ pyStrip payload.message ≠ ""
       ∧ ext.topic_valid (pyStrip payload.message) = false
       ∧ chat cfg ext s tok payload =
           (mkChatResponse topicRefusal "guardrail:topic" false payload.session_id,
            [.authenticate true, .langfuseAuthCheck ext.langfuse_auth_ok,
             .topicGuard (pyStrip payload.message), .respond], s))
  ∨ (∃ u, verify_token s tok = Except.ok u ∧ pyStrip payload.message ≠ ""
       ∧ ext.topic_valid (pyStrip payload.message) = true
       ∧ ext.reading_time_ok (invoke_agent cfg ext (pyStrip payload.message)).1 = false
       ∧ chat cfg ext s tok payload =
           (mkChatResponse readingTimeRefusal "guardrail:reading_time"
              ext.langfuse_auth_ok payload.session_id,
            [.authenticate true, .langfuseAuthCheck ext.langfuse_auth_ok,
             .topicGuard (pyStrip payload.message), .agentCall (pyStrip payload.message),
             .readingTimeGuard (invoke_agent cfg ext (pyStrip payload.message)).1,
             .respond], s))
  ∨ (∃ u, verify_token s tok = Except.ok u ∧ pyStrip payload.message ≠ ""
       ∧ ext.topic_valid (pyStrip payload.message) = true
       ∧ ext.reading_time_ok (invoke_agent cfg ext (pyStrip payload.message)).1 = true
       ∧ chat cfg ext s tok payload =
           (mkChatResponse (invoke_agent cfg ext (pyStrip payload.message)).1
              (invoke_agent cfg ext (pyStrip payload.message)).2
              ext.langfuse_auth_ok payload.session_id,
            [.authenticate true, .langfuseAuthCheck ext.langfuse_auth_ok,
             .topicGuard (pyStrip payload.message), .agentCall (pyStrip payload.message),
             .readingTimeGuard (invoke_agent cfg ext (pyStrip payload.message)).1,
             .respond], s)) := by
  unfold chat
  cases hv : verify_token s tok with
  | error e =>
      exact Or.inl ⟨e, rfl, rfl⟩
  | ok u =>
      by_cases hm : pyStrip payload.message = ""
      · refine Or.inr (Or.inl ⟨u, rfl, hm, ?_⟩)
        simp [hm]
      · by_cases ht : ext.topic_valid (pyStrip payload.message)
        · by_cases hr : ext.reading_time_ok (invoke_agent cfg ext (pyStrip payload.message)).1
          · refine Or.inr (Or.inr (Or.inr (Or.inr ⟨u, rfl, hm, ht, hr, ?_⟩)))
            simp [hm, ht, hr, apply_topic_guardrail, apply_reading_time_guardrail,
              GuardValue.isGuardrailsError]
          · refine Or.inr (Or.inr (Or.inr (Or.inl ⟨u, rfl, hm, ht, by simpa using hr, ?_⟩)))
            simp [hm, ht, hr, apply_topic_guardrail, apply_reading_time_guardrail,
              GuardValue.isGuardrailsError]
        · refine Or.inr (Or.inr (Or.inl ⟨u, rfl, hm, by simpa using ht, ?_⟩))
          simp [hm, ht, apply_topic_guardrail, GuardValue.isGuardrailsError]

/-- Inverting a successful `ChatResponse` construction: the optional
session id must have been supplied, and every field of the response is the
field that was passed. -/
theorem mkChatResponse_ok (reply source : String) (monitored : Bool)
    (sid : Option String) (resp : ChatResponse)
    (h : mkChatResponse reply source monitored sid = Except.ok resp) :
    sid = some resp.session_id ∧ resp.reply = reply ∧ resp.source = source
    ∧ resp.monitored = monitored := by
  cases sid with
  | none => simp [mkChatResponse] at h
  | some v =>
      simp only [mkChatResponse, Except.ok.injEq] at h
      subst h
      simp

/-- The `chat` handler only reads the token dictionary. -/
theorem chatTokens_eq (cfg : Config) (ext : Ext) (s : List (String × String))
    (tok : String) (payload : ChatRequest) :
    chatTokens cfg ext s tok payload = s := by
  rcases chat_cases cfg ext s tok payload with
      ⟨e, hv, hc⟩ | ⟨u, hv, hm, hc⟩ | ⟨u, hv, hm, ht, hc⟩
    | ⟨u, hv, hm, ht, hr, hc⟩ | ⟨u, hv, hm, ht, hr, hc⟩ <;>
    simp [chatTokens, hc]

/-- The `langgraph:`-prefixed provenance string is distinct from the three
fixed provenance strings, whatever the configured model name. -/
theorem langgraph_source_ne (m : String) :
    "langgraph:" ++ m ≠ "guardrail:topic"
    ∧ "langgraph:" ++ m ≠ "guardrail:reading_time"
    ∧ "langgraph:" ++ m ≠ "rule-based" := by
  refine ⟨?_, ?_, ?_⟩ <;> intro h <;>
    (have h2 := congrArg String.data h; simp [String.data_append] at h2)

/-- C1: the chat endpoint is a sequential pipeline — its external calls occur
in strictly increasing stage order (authenticate, Langfuse auth check,
topic validation, agent call, reading-time validation, respond); the agent
is never invoked when topic validation fails on the (stripped) message;
and a reading-time validation always follows an agent call and is applied
to the reply that call produced. -/
theorem chat_sequential_pipeline (cfg : Config) (ext : Ext)
    (s : List (String × String)) (tok : String) (payload : ChatRequest) :
    stageOrdered (chatTrace cfg ext s tok payload) = true
    ∧ (ext.topic_valid (pyStrip payload.message) = false →
        ∀ t, Event.agentCall t ∉ chatTrace cfg ext s tok payload)
    ∧ (∀ t, Event.readingTimeGuard t ∈ chatTrace cfg ext s tok payload →
        Event.agentCall (pyStrip payload.message) ∈ chatTrace cfg ext s tok payload
        ∧ t = (invoke_agent cfg ext (pyStrip payload.message)).1) := by
  rcases chat_cases cfg ext s tok payload with
      ⟨e, hv, hc⟩ | ⟨u, hv, hm, hc⟩ | ⟨u, hv, hm, ht, hc⟩
    | ⟨u, hv, hm, ht, hr, hc⟩ | ⟨u, hv, hm, ht, hr, hc⟩ <;>
    simp_all [chatTrace, stageOrdered, Event.stage]



/-- C2 (amended): for every authenticated, non-blank chat request the
content-policy checks applied are exactly: the topic guardrail on the
stripped incoming message and, when that passes, the reading-time
guardrail on the outgoing reply; when the topic guardrail blocks, it is
the only check applied; no other guardrail runs and neither runs on the
other side. -/
theorem chat_guardrail_checks (cfg : Config) (ext : Ext)
    (s : List (String × String)) (tok : String) (payload : ChatRequest) (u : String)
    (hauth : verify_token s tok = Except.ok u)
    (hmsg : pyStrip payload.message ≠ "") :
    List.filter Event.isGuardCheck (chatTrace cfg ext s tok payload) =
      (if ext.topic_valid (pyStrip payload.message) then
        [Event.topicGuard (pyStrip payload.message),
         Event.readingTimeGuard (invoke_agent cfg ext (pyStrip payload.message)).1]
      else
        [Event.topicGuard (pyStrip payload.message)]) := by
  rcases chat_cases cfg ext s tok payload with
      ⟨e, hv, hc⟩ | ⟨u', hv, hm, hc⟩ | ⟨u', hv, hm, ht, hc⟩
    | ⟨u', hv, hm, ht, hr, hc⟩ | ⟨u', hv, hm, ht, hr, hc⟩ <;>
    simp_all [chatTrace, Event.isGuardCheck]

/-- Witness for C2: with both guardrails passing, the checks applied to the
concrete request `reqW` are the topic check on the input and the
reading-time check on the reply. -/
theorem chat_guardrail_checks_witness :
    List.filter Event.isGuardCheck (chatTrace cfgW extAllOk sW "tok1" reqW) =
      (if extAllOk.topic_valid (pyStrip reqW.message) then
        [Event.topicGuard (pyStrip reqW.message),
         Event.readingTimeGuard (invoke_agent cfgW extAllOk (pyStrip reqW.message)).1]
      else
        [Event.topicGuard (pyStrip reqW.message)]) :=
  chat_guardrail_checks cfgW extAllOk sW "tok1" reqW "alice" rfl (by decide)

/-- Counterexample to C2 as stated: on a request whose topic validation
fails, only one content-policy check is applied, not two. -/
theorem chat_guardrail_checks_cex :
    (List.filter Event.isGuardCheck (chatTrace cfgW extTopicBlock sW "tok1" reqW)).length = 1
    ∧ (List.filter Event.isGuardCheck (chatTrace cfgW extTopicBlock sW "tok1" reqW)).length ≠ 2 := by
  decide

/-- C3: text that fails a guardrail is never shown — whenever the handler
returns a response and the topic guardrail failed on the (stripped) input,
the reply is the fixed topic refusal; whenever the topic guardrail passed
and the reading-time guardrail failed on the produced reply, the reply is
the fixed reading-time refusal. -/
theorem chat_blocked_text_never_shown (cfg : Config) (ext : Ext)
    (s : List (String × String)) (tok : String) (payload : ChatRequest)
    (resp : ChatResponse)
    (hresp : chatResult cfg ext s tok payload = Except.ok resp) :
    (ext.topic_valid (pyStrip payload.message) = false → resp.reply = topicRefusal)
    ∧ (ext.topic_valid (pyStrip payload.message) = true →
        ext.reading_time_ok (invoke_agent cfg ext (pyStrip payload.message)).1 = false →
        resp.reply = readingTimeRefusal) := by
  rcases chat_cases cfg ext s tok payload with
      ⟨e, hv, hc⟩ | ⟨u, hv, hm, hc⟩ | ⟨u, hv, hm, ht, hc⟩
    | ⟨u, hv, hm, ht, hr, hc⟩ | ⟨u, hv, hm, ht, hr, hc⟩ <;>
    simp only [chatResult, hc] at hresp <;>
    first
      | cases hresp
      | (have hfields := mkChatResponse_ok _ _ _ _ _ hresp
         simp_all)

/-- Witness for C3: on the concrete request `reqW` with the topic guardrail
blocking, the handler's reply is the canned topic refusal. -/
theorem chat_blocked_text_never_shown_witness :
    chatResult cfgW extTopicBlock sW "tok1" reqW = Except.ok respTopicBlocked
    ∧ respTopicBlocked.reply = topicRefusal :=
  ⟨rfl, (chat_blocked_text_never_shown cfgW extTopicBlock sW "tok1" reqW
      respTopicBlocked rfl).1 rfl⟩

/-- C4 (amended): provenance of every returned response — the source is
`"guardrail:topic"` exactly when the topic guardrail blocked;
`"guardrail:reading_time"` exactly when the topic guardrail passed and the
reading-time guardrail blocked; `"langgraph:{model}"` exactly when both
guardrails passed and the hosted agent produced a truthy (non-empty)
reply; `"rule-based"` exactly when both guardrails passed and the agent
did not, in which case the reply is `build_offline_reply` of the stripped
message. -/
theorem chat_source_provenance (cfg : Config) (ext : Ext)
    (s : List (String × String)) (tok : String) (payload : ChatRequest)
    (resp : ChatResponse)
    (hresp : chatResult cfg ext s tok payload = Except.ok resp) :
    (resp.source = "guardrail:topic" ↔
        ext.topic_valid (pyStrip payload.message) = false)
    ∧ (resp.source = "guardrail:reading_time" ↔
        ext.topic_valid (pyStrip payload.message) = true
        ∧ ext.reading_time_ok (invoke_agent cfg ext (pyStrip payload.message)).1 = false)
    ∧ (resp.source = "langgraph:" ++ cfg.OPENAI_MODEL ↔
        ext.topic_valid (pyStrip payload.message) = true
        ∧ ext.reading_time_ok (invoke_agent cfg ext (pyStrip payload.message)).1 = true
        ∧ truthyOptStr (run_agent ext (pyStrip payload.message)) = true)
    ∧ (resp.source = "rule-based" ↔
        ext.topic_valid (pyStrip payload.message) = true
        ∧ ext.reading_time_ok (invoke_agent cfg ext (pyStrip payload.message)).1 = true
        ∧ truthyOptStr (run_agent ext (pyStrip payload.message)) = false)
    ∧ (resp.source = "rule-based" →
        resp.reply = build_offline_reply (pyStrip payload.message)) := by
  obtain ⟨hg1, hg2, hg3⟩ := langgraph_source_ne cfg.OPENAI_MODEL
  rcases chat_cases cfg ext s tok payload with
      ⟨e, hv, hc⟩ | ⟨u, hv, hm, hc⟩ | ⟨u, hv, hm, ht, hc⟩
    | ⟨u, hv, hm, ht, hr, hc⟩ | ⟨u, hv, hm, ht, hr, hc⟩ <;>
    simp only [chatResult, hc] at hresp
  · cases hresp
  · cases hresp
  · obtain ⟨hsid, hrep, hsrc, hmon⟩ := mkChatResponse_ok _ _ _ _ _ hresp
    simp_all [Ne.symm hg1, Ne.symm hg2, Ne.symm hg3]
  · obtain ⟨hsid, hrep, hsrc, hmon⟩ := mkChatResponse_ok _ _ _ _ _ hresp
    simp_all [Ne.symm hg1, Ne.symm hg2, Ne.symm hg3]
  · obtain ⟨hsid, hrep, hsrc, hmon⟩ := mkChatResponse_ok _ _ _ _ _ hresp
    by_cases htr : truthyOptStr (run_agent ext (pyStrip payload.message)) = true
    · simp_all [invoke_agent, Ne.symm hg1, Ne.symm hg2, Ne.symm hg3, hg1, hg2, hg3]
    · simp_all [invoke_agent, Ne.symm hg1, Ne.symm hg2, Ne.symm hg3, hg1, hg2, hg3]

/-- Witness for C4: on the concrete request `reqW` with the agent offline and
both guardrails passing, the source is `"rule-based"` and the reply is the
offline fallback reply. -/
theorem chat_source_provenance_witness :
    respOffline.reply = build_offline_reply (pyStrip reqW.message) :=
  (chat_source_provenance cfgW extOffline sW "tok1" reqW respOffline rfl).2.2.2.2 rfl

/-- Counterexample to C4 as stated: on a request where the hosted agent
produced a truthy (non-empty) reply but the reading-time guardrail
blocked it, the source is `"guardrail:reading_time"`, not
`"langgraph:{model}"` — so “source is `langgraph:{model}` exactly when the
agent produced a non-empty reply” fails in one direction. -/
theorem chat_source_provenance_cex :
    chatResult cfgW extAgentLong sW "tok1" reqW =
      Except.ok { reply := readingTimeRefusal, source := "guardrail:reading_time",
                  monitored := true, session_id := "s1" }
    ∧ truthyOptStr (run_agent extAgentLong (pyStrip reqW.message)) = true
    ∧ "guardrail:reading_time" ≠ "langgraph:" ++ cfgW.OPENAI_MODEL := by
  refine ⟨rfl, rfl, by decide⟩

/-- C5 (amended): the monitored flag of a returned response is true exactly
when the Langfuse auth check succeeded and the topic guardrail did not
block the request; on a topic-guardrail block the flag is false
regardless of the auth check. -/
theorem chat_monitored_iff (cfg : Config) (ext : Ext)
    (s : List (String × String)) (tok : String) (payload : ChatRequest)
    (resp : ChatResponse)
    (hresp : chatResult cfg ext s tok payload = Except.ok resp) :
    resp.monitored = true ↔
      ext.langfuse_auth_ok = true
      ∧ ext.topic_valid (pyStrip payload.message) = true := by
  rcases chat_cases cfg ext s tok payload with
      ⟨e, hv, hc⟩ | ⟨u, hv, hm, hc⟩ | ⟨u, hv, hm, ht, hc⟩
    | ⟨u, hv, hm, ht, hr, hc⟩ | ⟨u, hv, hm, ht, hr, hc⟩ <;>
    simp only [chatResult, hc] at hresp
  · cases hresp
  · cases hresp
  · obtain ⟨hsid, hrep, hsrc, hmon⟩ := mkChatResponse_ok _ _ _ _ _ hresp
    simp_all
  · obtain ⟨hsid, hrep, hsrc, hmon⟩ := mkChatResponse_ok _ _ _ _ _ hresp
    simp_all
  · obtain ⟨hsid, hrep, hsrc, hmon⟩ := mkChatResponse_ok _ _ _ _ _ hresp
    simp_all

/-- Witness for C5: on the concrete request `reqW` with Langfuse
authenticated and the topic guardrail passing, the response is monitored. -/
theorem chat_monitored_iff_witness :
    respOffline.monitored = true :=
  (chat_monitored_iff cfgW extOffline sW "tok1" reqW respOffline rfl).mpr ⟨rfl, rfl⟩

/-- Counterexample to C5 as stated: the Langfuse auth check succeeds, yet the
returned response has `monitored = false`, because the topic guardrail
blocked the request and that branch hard-codes the flag to false. -/
theorem chat_monitored_cex :
    extTopicBlock.langfuse_auth_ok = true
    ∧ chatResult cfgW extTopicBlock sW "tok1" reqW =
        Except.ok { reply := topicRefusal, source := "guardrail:topic",
                    monitored := false, session_id := "s1" } :=
  ⟨rfl, rfl⟩

/-- After `login`, the token mapping is either unchanged (a failure) or has
exactly the freshly minted token prepended. -/
theorem login_tokens_cases (cfg : Config) (uuid : String) (cred : LoginRequest)
    (s : List (String × String)) :
    (login cfg uuid cred s).2 = s
    ∨ (login cfg uuid cred s).2 =
        (create_token uuid cred.username, cred.username) :: s := by
  unfold login
  by_cases h1 : (falsyOptStr cfg.AGENT_API_USERNAME
      || falsyOptStr cfg.AGENT_API_PASSWORD) = true
  · simp [h1]
  · by_cases h2 : (cfg.AGENT_API_USERNAME != some cred.username
        || cfg.AGENT_API_PASSWORD != some cred.password) = true
    · simp [h1, h2]
    · simp [h1, h2, save_token]

/-- C6: no service operation evicts a token — any token present in the
mapping is still present after health, login, chat or token verification;
and the only key an operation can add is the token a successful login
minted. -/
theorem active_tokens_no_eviction (cfg : Config) (op : Op)
    (s : List (String × String)) (t u : String)
    (h : tokenLookup s t = some u) :
    (tokenLookup (Op.step cfg op s) t).isSome = true
    ∧ (∀ k, (tokenLookup (Op.step cfg op s) k).isSome = true →
        (tokenLookup s k).isSome = true
        ∨ ∃ uuid cred, op = Op.loginOp uuid cred
            ∧ k = create_token uuid cred.username) := by
  cases op with
  | healthOp =>
      refine ⟨by simp [Op.step, health, h], fun k hk => Or.inl ?_⟩
      simpa [Op.step, health] using hk
  | verifyOp tok =>
      refine ⟨by simp [Op.step, h], fun k hk => Or.inl ?_⟩
      simpa [Op.step] using hk
  | chatOp ext tok payload =>
      refine ⟨by simp [Op.step, chatTokens_eq, h], fun k hk => Or.inl ?_⟩
      simpa [Op.step, chatTokens_eq] using hk
  | loginOp uuid cred =>
      have hstep : Op.step cfg (Op.loginOp uuid cred) s = (login cfg uuid cred s).2 := rfl
      rcases login_tokens_cases cfg uuid cred s with hl | hl
      · refine ⟨by simp [hstep, hl, h], fun k hk => Or.inl ?_⟩
        simpa [hstep, hl] using hk
      · rw [hstep, hl]
        constructor
        · by_cases he : create_token uuid cred.username = t <;>
            simp [tokenLookup, he, h]
        · intro k hk
          by_cases he : create_token uuid cred.username = k
          · exact Or.inr ⟨uuid, cred, rfl, he.symm⟩
          · simp [tokenLookup, he] at hk
            exact Or.inl hk

/-- Witness for C6: the token of the logged-in session in `sW` is still
present after a health request. -/
theorem active_tokens_no_eviction_witness :
    (tokenLookup (Op.step cfgW Op.healthOp sW) "tok1").isSome = true :=
  (active_tokens_no_eviction cfgW Op.healthOp sW "tok1" "alice" rfl).1

/-- C7: whenever `build_agent_runner` constructs the agent, the tool list it
passes is exactly `[tavily_search]`. -/
theorem build_agent_runner_tools (env : BuildEnv) (r : AgentRunner)
    (h : build_agent_runner env = some r) :
    r.tools = [Tool.tavily_search] := by
  unfold build_agent_runner build_tools at h
  split at h
  · cases h
  · split at h
    · cases h
    · split at h
      · cases h
        simp_all [build_tools]
      · cases h

/-- Witness for C7: under a fully configured environment the runner is built
and carries exactly the Tavily search tool. -/
theorem build_agent_runner_tools_witness :
    build_agent_runner envW = some runnerW
    ∧ runnerW.tools = [Tool.tavily_search] :=
  ⟨rfl, build_agent_runner_tools envW runnerW rfl⟩

/-- C8: the chat endpoint echoes the request's session id — a response is
produced only when the request supplied one, and the response carries it
unchanged (a `None` session id fails `ChatResponse` validation on every
branch). -/
theorem chat_session_id_echo (cfg : Config) (ext : Ext)
    (s : List (String × String)) (tok : String) (payload : ChatRequest)
    (resp : ChatResponse)
    (hresp : chatResult cfg ext s tok payload = Except.ok resp) :
    payload.session_id = some resp.session_id := by
  rcases chat_cases cfg ext s tok payload with
      ⟨e, hv, hc⟩ | ⟨u, hv, hm, hc⟩ | ⟨u, hv, hm, ht, hc⟩
    | ⟨u, hv, hm, ht, hr, hc⟩ | ⟨u, hv, hm, ht, hr, hc⟩ <;>
    simp only [chatResult, hc] at hresp
  · cases hresp
  · cases hresp
  · exact (mkChatResponse_ok _ _ _ _ _ hresp).1
  · exact (mkChatResponse_ok _ _ _ _ _ hresp).1
  · exact (mkChatResponse_ok _ _ _ _ _ hresp).1

/-- Witness for C8: the concrete request `reqW` supplies session id `"s1"`
and the returned response carries the same id. -/
theorem chat_session_id_echo_witness :
    reqW.session_id = some respEcho.session_id :=
  chat_session_id_echo cfgW extAllOk sW "tok1" reqW respEcho rfl

/-- C9: login and token verification round-trip — after any successful login,
verifying the token it returned yields exactly the username that logged
in, whatever the prior token state. -/
theorem login_verify_roundtrip (cfg : Config) (uuid : String) (cred : LoginRequest)
    (s : List (String × String)) (resp : LoginResponse) (s' : List (String × String))
    (h : login cfg uuid cred s = (Except.ok resp, s')) :
    verify_token s' resp.token = Except.ok cred.username := by
  unfold login at h
  by_cases h1 : (falsyOptStr cfg.AGENT_API_USERNAME
      || falsyOptStr cfg.AGENT_API_PASSWORD) = true
  · simp [h1] at h
  · by_cases h2 : (cfg.AGENT_API_USERNAME != some cred.username
        || cfg.AGENT_API_PASSWORD != some cred.password) = true
    · simp [h1, h2] at h
    · simp only [h1, h2, Bool.false_eq_true, if_false, Prod.mk.injEq,
        Except.ok.injEq, save_token] at h
      obtain ⟨hr, hs⟩ := h
      simp only [Bool.not_eq_true, Bool.or_eq_false_iff] at h1 h2
      have husr : cfg.AGENT_API_USERNAME = some cred.username := by
        have := h2.1
        simpa using this
      have hne : cred.username ≠ "" := by
        have := h1.1
        rw [husr] at this
        simpa [falsyOptStr, truthyOptStr] using this
      subst hr
      subst hs
      simp [verify_token, tokenLookup, hne]

/-- Witness for C9: a concrete login as `alice` followed by verification of
the minted token. -/
theorem login_verify_roundtrip_witness :
    verify_token [("token-u1-alice", "alice")] loginRespW.token = Except.ok "alice" :=
  login_verify_roundtrip cfgW "u1" { username := "alice", password := "pw" } []
    loginRespW [("token-u1-alice", "alice")] rfl

/-- C10: an authenticated request whose message strips to empty is rejected
with HTTP 400 `"message cannot be empty"`; no guardrail is evaluated and
the agent is not invoked; the token mapping is unchanged. -/
theorem chat_empty_message_rejected (cfg : Config) (ext : Ext)
    (s : List (String × String)) (tok : String) (payload : ChatRequest) (u : String)
    (hauth : verify_token s tok = Except.ok u)
    (hempty : pyStrip payload.message = "") :
    chatResult cfg ext s tok payload =
      Except.error (.httpException 400 "message cannot be empty")
    ∧ (∀ e, e ∈ chatTrace cfg ext s tok payload →
        e.isGuardCheck = false ∧ ∀ t, e ≠ Event.agentCall t)
    ∧ chatTokens cfg ext s tok payload = s := by
  rcases chat_cases cfg ext s tok payload with
      ⟨e, hv, hc⟩ | ⟨u', hv, hm, hc⟩ | ⟨u', hv, hm, ht, hc⟩
    | ⟨u', hv, hm, ht, hr, hc⟩ | ⟨u', hv, hm, ht, hr, hc⟩ <;>
    simp_all [chatResult, chatTrace, chatTokens, Event.isGuardCheck]

/-- Witness for C10: a blank message over a valid session is rejected with
400. -/
theorem chat_empty_message_rejected_witness :
    chatResult cfgW extAllOk sW "tok1" { message := "   ", session_id := some "s1" } =
      Except.error (.httpException 400 "message cannot be empty") :=
  (chat_empty_message_rejected cfgW extAllOk sW "tok1"
      { message := "   ", session_id := some "s1" } "alice" rfl (by decide)).1

end AgentService
